import Mathlib

/-!
# Verification of Syringe-Pump-Pro

A shallow embedding of the four Python source files of the
`Syringe-Pump-Pro` repository (`pump.py`, `implement.py`,
`aspirate_volume.py`, `gen-ppl.py`) together with proofs and refutations
of the specification's claims about them.

Conventions of the embedding:
* Python floats that only ever enter exact arithmetic are modelled as `ℚ`.
* A `serial.Serial` handle is modelled by its `is_open` flag; the bytes
  pending on the wire (what `read_all()` would return) are passed to
  `send_command` as an explicit argument.
* `None`-able Python attributes become `Option` values.
* Printing is modelled by returning the list of printed messages.
-/

namespace SyringePumpPro

/-! ## Generic character-list utilities (used to inspect generated text) -/

/-- Python/ASCII whitespace characters (the set stripped by `str.strip()`). -/
def isPySpace (c : Char) : Bool :=
  c == ' ' || c == '\t' || c == '\n' || c == '\r' || c == '\x0b' || c == '\x0c'

/-- Drop leading and trailing whitespace from a character list. -/
def trimChars (l : List Char) : List Char :=
  ((l.dropWhile isPySpace).reverse.dropWhile isPySpace).reverse

/-- Split a character list on a separator character. -/
def splitOnChar (sep : Char) : List Char → List (List Char)
  | [] => [[]]
  | a :: as =>
    let rest := splitOnChar sep as
    if a == sep then
      [] :: rest
    else
      match rest with
      | [] => [[a]]
      | h :: t => (a :: h) :: t

/-- The command lines of a PPL text: split into lines, cut each line at the
first `;` (inline comment), trim whitespace, and drop lines that are then
empty (blank lines and pure comment lines). -/
def commandLines (s : String) : List String :=
  (((splitOnChar '\n' s.data).map fun l =>
      trimChars (l.takeWhile fun c => c ≠ ';')).filter fun l =>
        ¬ l.isEmpty).map String.mk

/-! ## `gen-ppl.py` — the recipe-to-script generator

The two template functions interpolate Python numbers into f-strings.  The
embedding takes the interpolated values as the strings Python's `str()`
renders them to (the recipe values in the claims render as
`str(1) = "1"`, `str(5) = "5"`, `str(7) = "7"`, `str(2) = "2"`,
`str(0.5) = "0.5"`, `str(3) = "3"`).  The template text is copied
byte-for-byte from the source. -/

/-- `make_single(volume_uL, rate_mlh)` from `gen-ppl.py` (lines 5–19). -/
def make_single (volume_uL rate_mlh : String) : String :=
  "\n; Single droplet injection\n; 体積: " ++ volume_uL ++ " µL\n; 流量: " ++ rate_mlh ++ " mL/h\n; 注入方向: INF (押し出し)\nVOL " ++ volume_uL ++ " uL       ; 単独液滴の体積（" ++ volume_uL ++ " µL）\nRAT " ++ rate_mlh ++ " MH       ; 流量（" ++ rate_mlh ++ " mL/h）\nDIR INF                 ; 注入方向（INF: 押し出し）\nRUN                     ; ポンプを開始\n    "

/-- `make_coalescence(leading_uL, trailing_uL, rate_mlh, wait_s)` from
`gen-ppl.py` (lines 21–37). -/
def make_coalescence (leading_uL trailing_uL rate_mlh wait_s : String) : String :=
  "\n; Coalescence experiment\n; 先行液滴: " ++ leading_uL ++ " µL, 後続液滴: " ++ trailing_uL ++ " µL\n; 流量: " ++ rate_mlh ++ " mL/h, 待機時間: " ++ wait_s ++ " 秒\nVOL " ++ leading_uL ++ " uL       ; 先行液滴の体積（" ++ leading_uL ++ " µL）\nRAT " ++ rate_mlh ++ " MH        ; 流量（" ++ rate_mlh ++ " mL/h）\nDIR INF                  ; 注入方向（INF: 押し出し）\nRUN                      ; 先行液滴注入開始\nPAS " ++ wait_s ++ "             ; 後続液滴を注入する前に待機\nVOL " ++ trailing_uL ++ " uL     ; 後続液滴の体積（" ++ trailing_uL ++ " µL）\nRUN                      ; 後続液滴注入開始\n    "

/-- The single-droplet batch of the `__main__` block of `gen-ppl.py`
(lines 71–79): one `(filename, ppl_text)` pair per entry of the recipe's
`volumes_uL` list, all at the recipe's `pump.rate_mlh`. -/
def gen_single_files (volumes_uL : List String) (rate_mlh : String) :
    List (String × String) :=
  volumes_uL.map fun volume =>
    ("output/single_droplet/single_droplet_" ++ volume ++ "uL.ppl",
      make_single volume rate_mlh)

/-- The coalescence batch of the `__main__` block of `gen-ppl.py`
(lines 81–89): one file per `(lead, trail)` pair, where `trails lead`
models the dictionary lookup `trailing_uL[str(lead)]`. -/
def gen_coalescence_files (leading_uL : List String)
    (trails : String → List String) (rate_mlh wait_s : String) :
    List (String × String) :=
  leading_uL.flatMap fun lead =>
    (trails lead).map fun trail =>
      ("output/coalescence/" ++ lead ++ "uL_lead/coalescence_" ++ lead ++
          "uL_lead_" ++ trail ++ "uL_trail.ppl",
        make_coalescence lead trail rate_mlh wait_s)

/-! ## The timing model

`calculate_wait_time` is defined, identically, in `implement.py`
(lines 20–28) and `aspirate_volume.py` (lines 8–22).  It only performs
exact arithmetic on its inputs, so it is modelled over `ℚ`. -/

/-- `calculate_wait_time(volume_uL, rate_mlh)` from `implement.py` /
`aspirate_volume.py`: zero when `rate_mlh <= 0`, otherwise
`(volume_uL / 1000 / rate_mlh) * 3600 + 1.0`. -/
def calculate_wait_time (volume_uL rate_mlh : ℚ) : ℚ :=
  if rate_mlh ≤ 0 then 0
  else (volume_uL / 1000 / rate_mlh) * 3600 + 1

/-! ## `pump.py` — the `SyringePump` driver -/

/-- The model of a `serial.Serial` handle: only its open/closed state.
The bytes pending on the wire are passed to `send_command` separately. -/
structure Serial where
  is_open : Bool
  deriving DecidableEq, Repr

/-- The instance attributes assigned by `SyringePump.__init__`
(`pump.py` lines 5–22). -/
structure PumpState where
  port : String
  baudrate : ℕ
  timeout : ℕ
  ser : Option Serial
  default_rate_mlh : ℚ
  default_volume_uL : ℚ
  default_direction : String
  rate_mlh : Option ℚ
  volume_uL : Option ℚ
  direction : Option String
  deriving DecidableEq, Repr

/-- `SyringePump.__init__(port, baudrate, timeout, default_rate_mlh,
default_volume_uL, default_direction)`: stores the connection settings,
leaves `ser` unset and the three user settings `None`. -/
def SyringePump_init (port : String) (baudrate : ℕ) (timeout : ℕ)
    (default_rate_mlh : ℚ) (default_volume_uL : ℚ)
    (default_direction : String) : PumpState :=
  { port := port
    baudrate := baudrate
    timeout := timeout
    ser := none
    default_rate_mlh := default_rate_mlh
    default_volume_uL := default_volume_uL
    default_direction := default_direction
    rate_mlh := none
    volume_uL := none
    direction := none }

/-- The guard `self.ser is None or not self.ser.is_open` of
`send_command` (`pump.py` line 41). -/
def notConnected : Option Serial → Bool
  | none => true
  | some s => !s.is_open

/-- `disconnect` (`pump.py` lines 33–37): closes the serial handle if one
is present and open (`if self.ser and self.ser.is_open`), otherwise does
nothing.  The attribute `self.ser` itself is never cleared. -/
def disconnect (st : PumpState) : PumpState :=
  match st.ser with
  | none => st
  | some s =>
    if s.is_open then { st with ser := some { s with is_open := false } }
    else st

/-- `bytes.decode(errors="ignore")` restricted to its behaviour on the
ASCII plane: every byte below 128 decodes to the corresponding character
and every other (undecodable) byte is dropped. -/
def decode_ignore (bytes : List ℕ) : String :=
  String.mk ((bytes.filter fun b => b < 128).map Char.ofNat)

/-- What one call to `send_command` does: the bytes written to the wire
(if any), the Python return value (`none` models `None`), and the
messages printed. -/
structure SendOutcome where
  written : Option String
  response : Option String
  printed : List String
  deriving DecidableEq, Repr

/-- `send_command(command)` (`pump.py` lines 39–51): if the handle is
absent or closed, print `"Pump not connected!"` and return `None`;
otherwise write `command + "\r\n"`, sleep `0.5` s, read all pending
bytes, decode them with `errors="ignore"` and return the decoded text
unchanged.  `pending` is the byte sequence `read_all()` returns. -/
def send_command (ser : Option Serial) (pending : List ℕ)
    (command : String) : SendOutcome :=
  if notConnected ser then
    { written := none, response := none, printed := ["Pump not connected!"] }
  else
    { written := some (command ++ "\r\n")
      response := some (decode_ignore pending)
      printed := [] }

/-- `str.strip()` — following the spec's words "returns the trimmed text
(leading/trailing whitespace removed)"; used only to compare
`send_command`'s actual return value against the spec's description. -/
def spec_trim (s : String) : String :=
  String.mk (trimChars s.data)

/-- `set_rate(rate_mlh=None)` (`pump.py` lines 53–59): resolve the
argument against `default_rate_mlh`, store it in `self.rate_mlh`, then
send `RAT <rate> MH`.  The numeric rendering inside the command string is
abstracted by `toString`; no settled claim inspects this string. -/
def set_rate (st : PumpState) (rate_arg : Option ℚ) (pending : List ℕ) :
    PumpState × SendOutcome :=
  let rate_mlh := rate_arg.getD st.default_rate_mlh
  let st' := { st with rate_mlh := some rate_mlh }
  (st', send_command st'.ser pending ("RAT " ++ toString rate_mlh ++ " MH"))

/-- `set_volume(volume_uL=None)` (`pump.py` lines 61–67): resolve the
argument against `default_volume_uL`, store it in `self.volume_uL`, then
send `VOL <volume> uL`. -/
def set_volume (st : PumpState) (volume_arg : Option ℚ) (pending : List ℕ) :
    PumpState × SendOutcome :=
  let volume_uL := volume_arg.getD st.default_volume_uL
  let st' := { st with volume_uL := some volume_uL }
  (st', send_command st'.ser pending ("VOL " ++ toString volume_uL ++ " uL"))

/-- `set_direction(direction=None)` (`pump.py` lines 69–75): resolve the
argument against `default_direction`, store it in `self.direction`, then
send `DIRE <direction>`. -/
def set_direction (st : PumpState) (direction_arg : Option String)
    (pending : List ℕ) : PumpState × SendOutcome :=
  let direction := direction_arg.getD st.default_direction
  let st' := { st with direction := some direction }
  (st', send_command st'.ser pending ("DIRE " ++ direction))

/-! ## The class surface of `SyringePump` and the orchestrators' calls

`implement.py` and `aspirate_volume.py` call methods on the `SyringePump`
object.  To settle the claims about those call sites we record, straight
from the source, the method names the class defines, the positional-arity
each value-setter accepts, and the names and arities the orchestrators
call. -/

/-- The methods defined by `class SyringePump` (`pump.py` lines 4–92), in
source order. -/
def syringePumpMethods : List String :=
  ["__init__", "connect", "disconnect", "send_command", "set_rate",
   "set_volume", "set_direction", "run", "stop", "reset"]

/-- A Python method signature, counted in value (non-`self`) positional
arguments. -/
structure PySignature where
  min_positional : ℕ
  max_positional : ℕ
  deriving DecidableEq, Repr

/-- A call with `n` positional value arguments binds against a signature
iff `n` lies within its positional range. -/
def sigAccepts (sig : PySignature) (n : ℕ) : Bool :=
  sig.min_positional ≤ n && n ≤ sig.max_positional

/-- `def set_rate(self, rate_mlh=None)` (`pump.py` line 53): zero to one
value arguments. -/
def set_rate_sig : PySignature := { min_positional := 0, max_positional := 1 }

/-- `def set_volume(self, volume_uL=None)` (`pump.py` line 61): zero to
one value arguments. -/
def set_volume_sig : PySignature := { min_positional := 0, max_positional := 1 }

/-- The method names called during the initialization sequence of
`implement.py`'s `main` (lines 75–78): `pump.reset()`,
`pump.set_diameter(args.dia)`, `pump.set_direction("INF")`. -/
def implement_init_calls : List String :=
  ["reset", "set_diameter", "set_direction"]

/-- The method names called during the initialization sequence of
`aspirate_volume.py`'s `main` (lines 50–53). -/
def aspirate_init_calls : List String :=
  ["reset", "set_diameter", "set_direction"]

/-- Positional value-argument count of `pump.set_volume(volume, 'UL')`
(`implement.py` line 95; same shape at lines 110 and 121 and at
`aspirate_volume.py` line 60). -/
def orchestrator_set_volume_argc : ℕ := 2

/-- Positional value-argument count of `pump.set_rate(rate, 'MH')`
(`implement.py` line 96; same shape at lines 111 and 122 and at
`aspirate_volume.py` line 59). -/
def orchestrator_set_rate_argc : ℕ := 2

/-! ## Top-level exception handling of the orchestrators -/

/-- The two kinds of exception the orchestrators' `try` blocks
distinguish. -/
inductive PyExc
  | keyboardInterrupt
  | other
  deriving DecidableEq, Repr

/-- What the `except`/`finally` clauses of a `main` do once an exception
has escaped the `try` body: whether `pump.stop()` is invoked by a handler
and whether `pump.disconnect()` runs in the final cleanup. -/
structure CleanupTrace where
  stop_called : Bool
  disconnect_called : Bool
  deriving DecidableEq, Repr

/-- The handler structure of `implement.py`'s `main` (lines 133–140):
`except KeyboardInterrupt` calls `pump.stop()`; `except Exception` only
prints the error; `finally` always calls `pump.disconnect()`.  Neither
handler consults the connection state. -/
def implement_handler : PyExc → CleanupTrace
  | .keyboardInterrupt => { stop_called := true, disconnect_called := true }
  | .other => { stop_called := false, disconnect_called := true }

/-- The handler structure of `aspirate_volume.py`'s `main` (lines 77–90):
`except KeyboardInterrupt` calls `pump.stop()`; `except Exception` calls
`pump.stop()` under the guard `if pump and pump.ser` (`ser_present`);
`finally` always calls `pump.disconnect()`. -/
def aspirate_handler (ser_present : Bool) : PyExc → CleanupTrace
  | .keyboardInterrupt => { stop_called := true, disconnect_called := true }
  | .other => { stop_called := ser_present, disconnect_called := true }

/-- C8: the recipe `volumes_uL = [1, 5]`, `rate_mlh = 0.5` produces two
files, and the command lines of the two files are exactly
`VOL 1 uL; RAT 0.5 MH; DIR INF; RUN` and `VOL 5 uL; RAT 0.5 MH; DIR INF;
RUN` — in particular each file contains its own `VOL` line, then
`RAT 0.5 MH`, then `DIR INF`, then `RUN`, in that order. -/
theorem single_generator_two_files_command_order :
    (gen_single_files ["1", "5"] "0.5").length = 2 ∧
    (gen_single_files ["1", "5"] "0.5").map (fun p => commandLines p.2) =
      [["VOL 1 uL", "RAT 0.5 MH", "DIR INF", "RUN"],
       ["VOL 5 uL", "RAT 0.5 MH", "DIR INF", "RUN"]] := by
  constructor
  · rfl
  · decide

/-- C9: the coalescence recipe `leading = 7`, `trailing = 2`, `rate = 0.5`,
`wait_s = 3` produces exactly one file whose command lines are exactly
`VOL 7 uL; RAT 0.5 MH; DIR INF; RUN; PAS 3; VOL 2 uL; RUN`, in that
order. -/
theorem coalescence_generator_command_order :
    (gen_coalescence_files ["7"] (fun _ => ["2"]) "0.5" "3").length = 1 ∧
    (gen_coalescence_files ["7"] (fun _ => ["2"]) "0.5" "3").map
        (fun p => commandLines p.2) =
      [["VOL 7 uL", "RAT 0.5 MH", "DIR INF", "RUN", "PAS 3", "VOL 2 uL",
        "RUN"]] := by
  constructor
  · rfl
  · decide

/-- C1: for every volume (µL) and rate (mL/h), `calculate_wait_time`
equals the piecewise reference definition: `(volume/1000/rate)*3600 + 1.0`
when `rate > 0`, and `0` when `rate <= 0`. -/
theorem calculate_wait_time_spec (volume_uL rate_mlh : ℚ) :
    (0 < rate_mlh →
      calculate_wait_time volume_uL rate_mlh =
        (volume_uL / 1000 / rate_mlh) * 3600 + 1) ∧
    (rate_mlh ≤ 0 → calculate_wait_time volume_uL rate_mlh = 0) := by
  constructor <;> intro h
  · rw [calculate_wait_time, if_neg (not_le.mpr h)]
  · rw [calculate_wait_time, if_pos h]

/-- Witness for C1 at volume `2`, rates `1` and `0`. -/
theorem calculate_wait_time_spec_witness :
    calculate_wait_time 2 1 = (2 / 1000 / 1) * 3600 + 1 ∧
    calculate_wait_time 2 0 = 0 :=
  ⟨(calculate_wait_time_spec 2 1).1 (by norm_num),
   (calculate_wait_time_spec 2 0).2 (by norm_num)⟩

/-- C2 (refutation of the code): `SyringePump` defines no `set_diameter`
method, yet the initialization sequences of both orchestrators call
`pump.set_diameter(args.dia)` — the attribute lookup fails, so no
`DIA ...` bytes are ever produced. -/
theorem set_diameter_missing :
    "set_diameter" ∉ syringePumpMethods ∧
    "set_diameter" ∈ implement_init_calls ∧
    "set_diameter" ∈ aspirate_init_calls := by
  decide

/-- C3 (refutation of the code): the two-argument calls
`pump.set_volume(v, 'UL')` and `pump.set_rate(r, 'MH')` made by
`implement.py` and `aspirate_volume.py` do not bind against the
one-value-argument signatures `set_volume(self, volume_uL=None)` and
`set_rate(self, rate_mlh=None)` of `pump.py`. -/
theorem setter_calls_arity_mismatch :
    sigAccepts set_volume_sig orchestrator_set_volume_argc = false ∧
    sigAccepts set_rate_sig orchestrator_set_rate_argc = false := by
  decide

/-- C4 counterexample: with the pump connected and the pending bytes
`" OK "` (spaces around the text), `send_command` returns `" OK "`
itself, not the trimmed text `"OK"` the claim promises. -/
theorem send_command_response_not_trimmed :
    (send_command (some { is_open := true }) [32, 79, 75, 32] "RUN").response =
      some " OK " ∧
    spec_trim " OK " = "OK" ∧
    (send_command (some { is_open := true }) [32, 79, 75, 32] "RUN").response ≠
      some (spec_trim (decode_ignore [32, 79, 75, 32])) := by
  decide

/-- C4 as amended: if the driver is not connected (serial object absent
or closed), `send_command` writes nothing, returns a null result and logs
`"Pump not connected!"`; otherwise it writes the command followed by
CRLF and returns the decoded text exactly as received — without any
whitespace trimming. -/
theorem send_command_behaviour (ser : Option Serial) (pending : List ℕ)
    (command : String) :
    (notConnected ser = true →
      send_command ser pending command =
        { written := none, response := none,
          printed := ["Pump not connected!"] }) ∧
    (notConnected ser = false →
      send_command ser pending command =
        { written := some (command ++ "\r\n")
          response := some (decode_ignore pending)
          printed := [] }) := by
  constructor <;> intro h <;> simp [send_command, h]

/-- Witness for C4's amended claim on a disconnected and on a connected
driver. -/
theorem send_command_behaviour_witness :
    send_command none [] "RUN" =
      { written := none, response := none,
        printed := ["Pump not connected!"] } ∧
    send_command (some { is_open := true }) [79, 75] "RUN" =
      { written := some ("RUN" ++ "\r\n")
        response := some (decode_ignore [79, 75])
        printed := [] } :=
  ⟨(send_command_behaviour none [] "RUN").1 rfl,
   (send_command_behaviour (some { is_open := true }) [79, 75] "RUN").2 rfl⟩

/-- C5 counterexample: in `implement.py`, an unexpected (non-interrupt)
exception reaches a handler that never invokes `pump.stop()` — the pump
is not force-stopped even when connected; only the `finally` disconnect
runs. -/
theorem implement_unexpected_exception_no_stop :
    (implement_handler .other).stop_called = false ∧
    (implement_handler .other).disconnect_called = true := by
  decide

/-- C5 as amended: every exception is caught at the top level and the
connection is always torn down in the `finally` cleanup; the pump is
stopped on `KeyboardInterrupt` in both scripts, and on other exceptions
only in `aspirate_volume.py` (when a serial object is present) —
`implement.py`'s generic handler only logs and never stops the pump. -/
theorem exception_cleanup (e : PyExc) (ser_present : Bool) :
    (implement_handler e).disconnect_called = true ∧
    (aspirate_handler ser_present e).disconnect_called = true ∧
    (implement_handler .keyboardInterrupt).stop_called = true ∧
    (aspirate_handler ser_present .keyboardInterrupt).stop_called = true ∧
    (aspirate_handler ser_present .other).stop_called = ser_present ∧
    (implement_handler .other).stop_called = false := by
  cases e <;> cases ser_present <;> decide

/-- C6 counterexample: at volume `0` the wait time is `1` for every
positive rate, so `calculate_wait_time` is not strictly decreasing in
rate for *every* volume: rates `1 < 2` give equal waits. -/
theorem wait_time_constant_in_rate_at_zero_volume :
    (0 : ℚ) < 1 ∧ (1 : ℚ) < 2 ∧
    ¬ calculate_wait_time 0 2 < calculate_wait_time 0 1 := by
  refine ⟨by norm_num, by norm_num, ?_⟩
  norm_num [calculate_wait_time]

/-- C6 as amended: for every rate `r > 0`, `calculate_wait_time` is
strictly increasing in volume; and for every *positive* volume it is
strictly decreasing in rate on `r > 0`. -/
theorem calculate_wait_time_monotone (v v1 v2 r r1 r2 : ℚ) :
    (0 < r → v1 < v2 →
      calculate_wait_time v1 r < calculate_wait_time v2 r) ∧
    (0 < v → 0 < r1 → r1 < r2 →
      calculate_wait_time v r2 < calculate_wait_time v r1) := by
  constructor
  · intro hr hv
    rw [calculate_wait_time, if_neg (not_le.mpr hr),
      calculate_wait_time, if_neg (not_le.mpr hr)]
    have key : v1 / 1000 / r < v2 / 1000 / r := by
      rw [div_div, div_div]
      exact div_lt_div_of_pos_right hv (by positivity)
    linarith
  · intro hv hr1 hlt
    have hr2 : 0 < r2 := hr1.trans hlt
    rw [calculate_wait_time, if_neg (not_le.mpr hr2),
      calculate_wait_time, if_neg (not_le.mpr hr1)]
    have key : v / 1000 / r2 < v / 1000 / r1 :=
      div_lt_div_of_pos_left (by positivity) hr1 hlt
    linarith

/-- Witness for C6's amended claim at volume `1 < 2` (rate `1`) and rate
`1 < 2` (volume `1`). -/
theorem calculate_wait_time_monotone_witness :
    calculate_wait_time 1 1 < calculate_wait_time 2 1 ∧
    calculate_wait_time 1 2 < calculate_wait_time 1 1 :=
  ⟨(calculate_wait_time_monotone 1 1 2 1 1 2).1 (by norm_num) (by norm_num),
   (calculate_wait_time_monotone 1 1 2 1 1 2).2 (by norm_num) (by norm_num)
     (by norm_num)⟩

/-- C7: `disconnect` is idempotent — on a driver whose serial object is
absent or closed it is the identity (no action, no error), and calling it
twice always equals calling it once. -/
theorem disconnect_idempotent (st : PumpState) :
    (notConnected st.ser = true → disconnect st = st) ∧
    disconnect (disconnect st) = disconnect st := by
  rcases st with ⟨p, b, t, ser, dr, dv, dd, r, v, d⟩
  rcases ser with _ | ⟨o⟩
  · exact ⟨fun _ => rfl, rfl⟩
  · rcases o with _ | _
    · exact ⟨fun _ => rfl, rfl⟩
    · refine ⟨fun h => ?_, rfl⟩
      simp [notConnected] at h

/-- Witness for C7 on a freshly initialized (never connected) driver. -/
theorem disconnect_idempotent_witness :
    notConnected (SyringePump_init "COM3" 19200 2 (1 / 2) 5 "INF").ser =
      true ∧
    disconnect (SyringePump_init "COM3" 19200 2 (1 / 2) 5 "INF") =
      SyringePump_init "COM3" 19200 2 (1 / 2) 5 "INF" :=
  ⟨rfl, (disconnect_idempotent (SyringePump_init "COM3" 19200 2 (1 / 2) 5
      "INF")).1 rfl⟩

/-- C10: each setter stores its argument (or the stored default when
given `None`) in the corresponding instance field and leaves every other
field unchanged, for every driver state — connected or not — and every
pending input; the record-update form of the right-hand sides asserts
exactly "that field set, all others as in `st`". -/
theorem setters_update_and_frame (st : PumpState) (r v : ℚ) (d : String)
    (pending : List ℕ) :
    (set_rate st (some r) pending).1 = { st with rate_mlh := some r } ∧
    (set_rate st none pending).1 =
      { st with rate_mlh := some st.default_rate_mlh } ∧
    (set_volume st (some v) pending).1 = { st with volume_uL := some v } ∧
    (set_volume st none pending).1 =
      { st with volume_uL := some st.default_volume_uL } ∧
    (set_direction st (some d) pending).1 =
      { st with direction := some d } ∧
    (set_direction st none pending).1 =
      { st with direction := some st.default_direction } :=
  ⟨rfl, rfl, rfl, rfl, rfl, rfl⟩

end SyringePumpPro
